import Mathlib

/-!
Verification of the cslvr ice-sheet model driver (`src/cslvr/model.py`)
against its natural-language specification.

The Python code is shallowly embedded: pure numeric formulas become
functions over `ℚ` (or `ℝ` where a square root appears), nodal arrays
become `List ℚ`, the fixed-point loops become fuel-indexed recursive
functions on explicit state records, and the external finite-element
backend calls (momentum / energy / mass solves, the FEniCS norm) become
function parameters of the drivers, exactly as they are opaque callees
of the Python drivers.  IEEE `np.inf` sentinels used by the loop guards
are embedded by the two-constructor type `ErrVal`.
-/

namespace Cslvr

/-- DOLFIN machine-epsilon constant `DOLFIN_EPS` (3.0e-16 in DOLFIN). -/
def DOLFIN_EPS : ℚ := 3 / 10 ^ 16

/-! ### Constitutive rate factor (`model.py` lines 1766-1787)

`form_energy_dependent_rate_factor` and `calc_A` both build

    a_T = conditional( lt(Tp, 263.15), a_T_l, a_T_u)
    Q_T = conditional( lt(Tp, 263.15), Q_T_l, Q_T_u)
    W_T = conditional( lt(W, 0.01), W, 0.01)
    A   = E*a_T*(1 + 181.25*W_T)*exp(-Q_T/(R*Tp))

The exponential is evaluated by the external UFL backend, so it enters
the embedding as a function parameter `expF`. -/

def form_energy_dependent_rate_factor (expF : ℚ → ℚ)
    (Tp W R E a_T_l a_T_u Q_T_l Q_T_u : ℚ) : ℚ :=
  let a_T := if Tp < 263.15 then a_T_l else a_T_u
  let Q_T := if Tp < 263.15 then Q_T_l else Q_T_u
  let W_T := if W < 0.01 then W else 0.01
  E * a_T * (1 + 181.25 * W_T) * expF (-Q_T / (R * Tp))

def calc_A (expF : ℚ → ℚ)
    (Tp W R E a_T_l a_T_u Q_T_l Q_T_u : ℚ) : ℚ :=
  let a_T := if Tp < 263.15 then a_T_l else a_T_u
  let Q_T := if Tp < 263.15 then Q_T_l else Q_T_u
  let W_T := if W < 0.01 then W else 0.01
  E * a_T * (1 + 181.25 * W_T) * expF (-Q_T / (R * Tp))

/-- The spec side of C1, written with `min` exactly as §4.2 states it:
`A = E · a_T · (1 + 181.25 · min(W, 0.01)) · exp(−Q_T/(R·Tp))`. -/
def rate_factor_spec (expF : ℚ → ℚ)
    (Tp W R E a_T_l a_T_u Q_T_l Q_T_u : ℚ) : ℚ :=
  (if Tp < 263.15 then
    E * a_T_l * (1 + 181.25 * min W 0.01) * expF (-Q_T_l / (R * Tp))
  else
    E * a_T_u * (1 + 181.25 * min W 0.01) * expF (-Q_T_u / (R * Tp)))

/-! ### Fb_max mask update (`model.py` lines 2704-2710)

Inside `thermo_solve`, when `energy.energy_flux_mode == 'Fb'`:

    Fb_m_v                 = self.Fb_max.vector().array()
    alpha_v                = self.alpha.vector().array()
    Fb_m_v[:]              = DOLFIN_EPS
    Fb_m_v[alpha_v == 1.0] = bounds[1]
    self.init_Fb_max(Fb_m_v)

The slice assignment overwrites every entry with `DOLFIN_EPS`, then the
boolean-mask assignment overwrites the entries where `alpha == 1.0` with
the user-supplied upper bound `bounds[1]` (the copy of
`wop_kwargs` bounds taken at lines 2649-2654 before the loop). -/

def update_Fb_max (alpha_v : List ℚ) (ub : ℚ) : List ℚ :=
  alpha_v.map (fun a => if a = 1 then ub else DOLFIN_EPS)

/-! ### init_U / init_U_mag (`model.py` lines 790-826)

`init_U` assigns the velocity vector to `U3` and then calls
`init_U_mag(U3)`, which splits the components and sets

    U_mag_v = np.sqrt(u_v**2 + v_v**2 + w_v**2 + DOLFIN_EPS)

Nodal component arrays are embedded as real triples (a square root
appears); the model state carries the fields the two methods write. -/

structure VelState where
  U3 : List (ℝ × ℝ × ℝ)
  U_mag : List ℝ

noncomputable def init_U_mag_values (U : List (ℝ × ℝ × ℝ)) : List ℝ :=
  U.map (fun c => Real.sqrt (c.1 ^ 2 + c.2.1 ^ 2 + c.2.2 ^ 2 + (DOLFIN_EPS : ℚ)))

noncomputable def init_U (s : VelState) (U : List (ℝ × ℝ × ℝ)) : VelState :=
  { s with U3 := U, U_mag := init_U_mag_values U }

/-! ### The thermo_solve fixed-point loop (`model.py` lines 2656-2763)

The loop state carries the enthalpy field, the previous iterate, the two
error values (initialised to `np.inf`, embedded as `ErrVal.inf`), the
iteration counter, and the contents of the two append-only history
files.  The per-iteration solver calls (momentum solve, `calc_T_melt`,
temperate-zone derivation, energy solve, ...) are backend calls that in
sum map the current enthalpy to the next one; they enter the embedding
as the parameter `step`.  The FEniCS `norm(·, 'l2')` of the difference
of two nodal vectors enters as `errFn`, the norm of one vector as
`nrmFn`. -/

inductive ErrVal
  | inf
  | val (q : ℚ)
deriving DecidableEq

/-- `e > a` with `e` possibly the IEEE `np.inf` sentinel. -/
def ErrVal.gtQ : ErrVal → ℚ → Bool
  | .inf, _ => true
  | .val x, a => decide (a < x)

/-- `abs(err_prev - err_now)` with `err_prev` possibly `np.inf`. -/
def ErrVal.absSub : ErrVal → ℚ → ErrVal
  | .inf, _ => .inf
  | .val x, y => .val |x - y|

structure TmcState where
  theta : List ℚ
  thetaPrev : List ℚ
  absError : ErrVal
  relError : ErrVal
  counter : ℕ
  absErrFile : List ℚ
  thetaNormFile : List ℚ
  iters : ℕ
deriving DecidableEq

/-- The `while` guard of both fixed-point drivers:
`abs_error > atol and rel_error > rtol and counter <= max_iter`. -/
def tmcGuard (absError relError : ErrVal) (counter maxIter : ℕ)
    (atol rtol : ℚ) : Bool :=
  absError.gtQ atol && relError.gtQ rtol && decide (counter ≤ maxIter)

/-- One iteration of the `thermo_solve` loop body: run the solver
sequence, compute `abs_error_n` and the enthalpy norm, apply the
iteration-1 rule for `rel_error` and for overwriting vs appending the
history files, then advance `abs_error`, `U_prev` and the counter. -/
def tmcBody (step : ℕ → List ℚ → List ℚ) (errFn : List ℚ → List ℚ → ℚ)
    (nrmFn : List ℚ → ℚ) (s : TmcState) : TmcState :=
  let theta := step s.counter s.theta
  let absErrorN := errFn s.thetaPrev theta
  let thtNrm := nrmFn theta
  let relError := if s.counter = 1 then ErrVal.val absErrorN
                  else s.absError.absSub absErrorN
  let absErrFile := if s.counter = 1 then [absErrorN]
                    else s.absErrFile ++ [absErrorN]
  let thetaNormFile := if s.counter = 1 then [thtNrm]
                       else s.thetaNormFile ++ [thtNrm]
  { theta := theta, thetaPrev := theta, absError := ErrVal.val absErrorN,
    relError := relError, counter := s.counter + 1,
    absErrFile := absErrFile, thetaNormFile := thetaNormFile,
    iters := s.iters + 1 }

def tmcLoop (step : ℕ → List ℚ → List ℚ) (errFn : List ℚ → List ℚ → ℚ)
    (nrmFn : List ℚ → ℚ) (atol rtol : ℚ) (maxIter : ℕ) :
    ℕ → TmcState → TmcState
  | 0, s => s
  | fuel + 1, s =>
    if tmcGuard s.absError s.relError s.counter maxIter atol rtol then
      tmcLoop step errFn nrmFn atol rtol maxIter fuel
        (tmcBody step errFn nrmFn s)
    else s

/-- Counter initialisation shared by `thermo_solve` and
`assimilate_U_ob`: `counter = 1 if starting_i <= 1 else starting_i`. -/
def counter_start (startingI : ℕ) : ℕ :=
  if startingI ≤ 1 then 1 else startingI

/-- `thermo_solve` from its loop-relevant inputs: errors start at
`np.inf`, `U_prev` is a copy of `theta`, and the loop runs while the
guard holds (the counter increments every iteration, so `maxIter + 1`
units of fuel always suffice). -/
def thermo_solve (step : ℕ → List ℚ → List ℚ) (errFn : List ℚ → List ℚ → ℚ)
    (nrmFn : List ℚ → ℚ) (atol rtol : ℚ) (maxIter startingI : ℕ)
    (theta0 absErrFile0 thetaNormFile0 : List ℚ) : TmcState :=
  tmcLoop step errFn nrmFn atol rtol maxIter (maxIter + 1)
    { theta := theta0, thetaPrev := theta0, absError := ErrVal.inf,
      relError := ErrVal.inf, counter := counter_start startingI,
      absErrFile := absErrFile0, thetaNormFile := thetaNormFile0, iters := 0 }

/-! ### Adaptive retry loops of transient_solve (`model.py` 3330-3371)

The momentum loop retries with the Newton relaxation parameter divided
by 1.43 after each reported failure and gives up once the parameter
drops below 0.2; the mass loop retries with the time step halved and
gives up once `dt < DOLFIN_EPS` — except that any failure reported at a
time `t <= 100` is overridden to success before the retry test.  The
backend solves enter as Boolean-status functions of the current
parameter. -/

structure RetryResult where
  param : ℚ
  solved : Bool
  attempts : ℕ
deriving DecidableEq

def momentum_retry (solve : ℚ → Bool) : ℕ → ℚ → RetryResult
  | 0, par => ⟨par, false, 0⟩
  | fuel + 1, par =>
    if par < 0.2 then ⟨par, false, 0⟩
    else if solve par then ⟨par, true, 1⟩
    else
      let r := momentum_retry solve fuel (par / 1.43)
      ⟨r.param, r.solved, r.attempts + 1⟩

def mass_retry (t : ℚ) (solve : ℚ → Bool) : ℕ → ℚ → RetryResult
  | 0, dt => ⟨dt, false, 0⟩
  | fuel + 1, dt =>
    if dt < DOLFIN_EPS then ⟨dt, false, 0⟩
    else
      let status := solve dt
      let solved := if t ≤ 100 then true else status
      if solved then ⟨dt, true, 1⟩
      else
        let r := mass_retry t solve fuel (dt / 2)
        ⟨r.param, r.solved, r.attempts + 1⟩

/-- End-of-step restoration (`model.py` lines 3405-3413): the
relaxation parameter and the time step are reset to the
originally-requested values whenever they differ. -/
def restore_params (alpha timeStep par dt : ℚ) : ℚ × ℚ :=
  ((if par ≠ alpha then alpha else par),
   (if dt ≠ timeStep then timeStep else dt))

/-! ### Misconfiguration outcomes (`model.py` 2046-2087, 2621-2629,
3299-3312)

`assign_variable` dispatches on the runtime type of `var`; every
recognized kind performs an assignment or file read and the fallthrough
branch prints a red asterisk-framed warning and continues (the local
rebinding `u = var` does not touch the model field).  The instance-class
guards of `thermo_solve` and `transient_solve` print a red `>>>` banner
and call `sys.exit(1)`. -/

inductive PyVal
  | pyFloat (x : ℚ)
  | pyInt (n : ℤ)
  | ndarray (a : List ℚ)
  | expression
  | pyConstant
  | pyFunction
  | genericVector
  | strPath (path : String)
  | hdf5File
  | otherObject
deriving DecidableEq

inductive Outcome
  | ok
  | warn (msg : String)
  | fatalExit (code : ℕ) (msg : String)
deriving DecidableEq

def Outcome.isFatal : Outcome → Bool
  | .fatalExit _ _ => true
  | _ => false

def assign_variable_warning : String :=
  "*************************************************************\n" ++
  "assign_variable() function requires a Function, array, float,\n" ++
  " int, Vector, Expression, Constant, or string path to .xml,\n" ++
  "not the supplied type.  Replacing object entirely\n" ++
  "*************************************************************"

def assign_variable_dispatch : PyVal → Outcome
  | .pyFloat _ => .ok
  | .pyInt _ => .ok
  | .ndarray _ => .ok
  | .expression => .ok
  | .pyConstant => .ok
  | .pyFunction => .ok
  | .genericVector => .ok
  | .strPath _ => .ok
  | .hdf5File => .ok
  | .otherObject => .warn assign_variable_warning

def thermo_solve_momentum_msg : String :=
  ">>> thermo_solve REQUIRES A Momentum INSTANCE <<<"

def thermo_solve_energy_msg : String :=
  ">>> thermo_solve REQUIRES AN Energy INSTANCE <<<"

def thermo_solve_check (isMomentum isEnergy : Bool) : Outcome :=
  if !isMomentum then .fatalExit 1 thermo_solve_momentum_msg
  else if !isEnergy then .fatalExit 1 thermo_solve_energy_msg
  else .ok

def transient_momentum_msg : String :=
  ">>> transient_solve REQUIRES A Momentum INSTANCE <<<"

def transient_energy_msg : String :=
  ">>> transient_solve REQUIRES AN Energy INSTANCE <<<"

def transient_mass_msg : String :=
  ">>> transient_solve REQUIRES A Mass INSTANCE <<<"

def transient_solve_check (momBase enerBase massBase : Bool) : Outcome :=
  if !momBase then .fatalExit 1 transient_momentum_msg
  else if !enerBase then .fatalExit 1 transient_energy_msg
  else if !massBase then .fatalExit 1 transient_mass_msg
  else .ok

/-! ### assimilate_U_ob (`model.py` lines 2836-2988)

Per-iteration output directories are named `'%0*d/' % (n_i, counter)`
with `n_i = len(str(max_iter))`; the loop guard, error bookkeeping and
history files mirror `thermo_solve`; the initialization thermo-couple
runs in `initialization/` exactly when the flag is set, before and
independent of the restart counter.  The inner inversion and
thermo-couple per iteration enter as the parameter `step` on the basal
traction, the FEniCS norm of the difference as `errFn`. -/

def zero_pad (w : ℕ) (s : String) : String :=
  if s.length < w then String.mk (List.replicate (w - s.length) '0') ++ s
  else s

def asm_dir_name (maxIter counter : ℕ) : String :=
  zero_pad (Nat.repr maxIter).length (Nat.repr counter) ++ "/"

structure AsmState (B : Type) where
  beta : B
  betaPrev : B
  absError : ErrVal
  relError : ErrVal
  counter : ℕ
  absErrFile : List ℚ
  histCounters : List ℕ
  dirs : List String

def asm_body {B : Type} (step : ℕ → B → B) (errFn : B → B → ℚ)
    (maxIter : ℕ) (s : AsmState B) : AsmState B :=
  let dir := asm_dir_name maxIter s.counter
  let beta := step s.counter s.beta
  let absErrorN := errFn s.betaPrev beta
  let relError := if s.counter = 1 then ErrVal.val absErrorN
                  else s.absError.absSub absErrorN
  let absErrFile := if s.counter = 1 then [absErrorN]
                    else s.absErrFile ++ [absErrorN]
  { beta := beta, betaPrev := beta, absError := ErrVal.val absErrorN,
    relError := relError, counter := s.counter + 1,
    absErrFile := absErrFile,
    histCounters := s.histCounters ++ [s.counter],
    dirs := s.dirs ++ [dir] }

def asm_loop {B : Type} (step : ℕ → B → B) (errFn : B → B → ℚ)
    (atol rtol : ℚ) (maxIter : ℕ) : ℕ → AsmState B → AsmState B
  | 0, s => s
  | fuel + 1, s =>
    if tmcGuard s.absError s.relError s.counter maxIter atol rtol then
      asm_loop step errFn atol rtol maxIter fuel
        (asm_body step errFn maxIter s)
    else s

structure AsmResult (B : Type) where
  initPerformed : Bool
  run : AsmState B

def assimilate_U_ob {B : Type} (step : ℕ → B → B) (errFn : B → B → ℚ)
    (atol rtol : ℚ) (maxIter : ℕ) (initFlag : Bool) (startingI : ℕ)
    (beta_i : B) (absErrFile0 : List ℚ) : AsmResult B :=
  { initPerformed := initFlag,
    run := asm_loop step errFn atol rtol maxIter (maxIter + 1)
      { beta := beta_i, betaPrev := beta_i, absError := ErrVal.inf,
        relError := ErrVal.inf, counter := counter_start startingI,
        absErrFile := absErrFile0, histCounters := [], dirs := [] } }

/-! ### Topography floors (`datafactory.py` 737-741 and 937-942)

`get_bedmap2`:

    B = S - H
    H[H == 32767]  = thklim
    H[H <= thklim] = thklim
    S = B + H

`get_bamber`:

    B   = Bo.copy(True)
    H[H == -9999.0] = 0.0
    S[H < thklim] = B[H < thklim] + thklim
    H[H < thklim] = thklim
    B             = S - H

Both return the adjusted `(S, B, H)` triples; the grids are embedded as
flat nodal lists. -/

def bedmap2_adjust (S H : List ℚ) (thklim : ℚ) :
    List ℚ × List ℚ × List ℚ :=
  let B := List.zipWith (· - ·) S H
  let H1 := H.map (fun h => if h = 32767 then thklim else h)
  let H2 := H1.map (fun h => if h ≤ thklim then thklim else h)
  let S2 := List.zipWith (· + ·) B H2
  (S2, B, H2)

def bamber_adjust (S Bo H : List ℚ) (thklim : ℚ) :
    List ℚ × List ℚ × List ℚ :=
  let H1 := H.map (fun h => if h = -9999 then 0 else h)
  let S1 := List.zipWith
    (fun sb h1 => if h1 < thklim then sb.2 + thklim else sb.1) (S.zip Bo) H1
  let H2 := H1.map (fun h => if h < thklim then thklim else h)
  let B2 := List.zipWith (· - ·) S1 H2
  (S1, B2, H2)

/-! ### L_curve (`model.py` lines 3029-3089)

The initial control is snapshotted once (`control_ini`); for each
regularization weight the physics is reset and the control restored —
but only from the second weight on (`if i > 0`).  The optimizer is a
backend call taking the physics state, the control and the weight and
producing the successor state, the updated control and the files
persisted in that weight's `alpha_<α>/` directory. -/

def l_curve_go {P C A F : Type} (reset : P → P)
    (optimize : P → C → A → P × C × F) (c0 : C) :
    Bool → P → C → List A → List (A × F)
  | _, _, _, [] => []
  | first, p, c, a :: rest =>
    let p1 := if first then p else reset p
    let c1 := if first then c else c0
    let r := optimize p1 c1 a
    (a, r.2.2) :: l_curve_go reset optimize c0 false r.1 r.2.1 rest

def L_curve {P C A F : Type} (reset : P → P)
    (optimize : P → C → A → P × C × F) (p0 : P) (c0 : C)
    (alphas : List A) : List (A × F) :=
  l_curve_go reset optimize c0 true p0 c0 alphas

end Cslvr

namespace Cslvr

/-- Indexing a mapped list below its length. -/
theorem getD_map_lt {α β : Type} (f : α → β) (l : List α) (i : ℕ) (d : β)
    (da : α) (h : i < l.length) :
    (l.map f).getD i d = f (l.getD i da) := by
  rw [List.getD_eq_getElem?_getD, List.getElem?_map,
      List.getElem?_eq_getElem h, List.getD_eq_getElem?_getD,
      List.getElem?_eq_getElem h]
  rfl

/-- Indexing a zipWith of two lists below both lengths. -/
theorem getD_zipWith_lt {α β γ : Type} (f : α → β → γ) (a : List α)
    (b : List β) (i : ℕ) (d : γ) (da : α) (db : β)
    (ha : i < a.length) (hb : i < b.length) :
    (List.zipWith f a b).getD i d = f (a.getD i da) (b.getD i db) := by
  rw [List.getD_eq_getElem?_getD, List.getElem?_zipWith',
      List.getElem?_eq_getElem ha, List.getElem?_eq_getElem hb,
      List.getD_eq_getElem?_getD, List.getElem?_eq_getElem ha,
      List.getD_eq_getElem?_getD, List.getElem?_eq_getElem hb]
  rfl

/-- C1: the rate factor computed by `calc_A`, and identically by
`form_energy_dependent_rate_factor`, equals
`E * a_T * (1 + 181.25 * min(W, 0.01)) * exp(-Q_T/(R*Tp))` with
`(a_T, Q_T) = (a_T_l, Q_T_l)` when `Tp < 263.15` and `(a_T_u, Q_T_u)`
when `Tp ≥ 263.15`; in particular with `E = 1`, `W = 0`, at
`Tp = 263.14` it equals `a_T_l * exp(-Q_T_l/(R*263.14))` and at
`Tp = 263.15` it equals `a_T_u * exp(-Q_T_u/(R*263.15))`. -/
theorem C1_rate_factor (expF : ℚ → ℚ)
    (Tp W R E a_T_l a_T_u Q_T_l Q_T_u : ℚ) :
    calc_A expF Tp W R E a_T_l a_T_u Q_T_l Q_T_u
      = rate_factor_spec expF Tp W R E a_T_l a_T_u Q_T_l Q_T_u ∧
    form_energy_dependent_rate_factor expF Tp W R E a_T_l a_T_u Q_T_l Q_T_u
      = calc_A expF Tp W R E a_T_l a_T_u Q_T_l Q_T_u ∧
    calc_A expF 263.14 0 R 1 a_T_l a_T_u Q_T_l Q_T_u
      = a_T_l * expF (-Q_T_l / (R * 263.14)) ∧
    calc_A expF 263.15 0 R 1 a_T_l a_T_u Q_T_l Q_T_u
      = a_T_u * expF (-Q_T_u / (R * 263.15)) := by
  refine ⟨?_, rfl, ?_, ?_⟩
  · unfold calc_A rate_factor_spec
    rcases lt_or_le Tp 263.15 with h | h
    · simp only [if_pos h]
      rcases lt_or_le W 0.01 with hw | hw
      · rw [if_pos hw, min_eq_left hw.le]
      · rw [if_neg (not_lt.mpr hw), min_eq_right hw]
    · simp only [if_neg (not_lt.mpr h)]
      rcases lt_or_le W 0.01 with hw | hw
      · rw [if_pos hw, min_eq_left hw.le]
      · rw [if_neg (not_lt.mpr hw), min_eq_right hw]
  · unfold calc_A
    rw [if_pos (by norm_num), if_pos (by norm_num), if_pos (by norm_num)]
    ring
  · unfold calc_A
    rw [if_neg (by norm_num), if_neg (by norm_num), if_pos (by norm_num)]
    ring

/-- C2: after the Fb_max update step of `thermo_solve` (and before
`optimize_water_flux` is called), every dof with `alpha = 0` holds
`DOLFIN_EPS` in `Fb_max`, and every dof with `alpha = 1` holds the
user-supplied upper bound from `wop_kwargs` bounds. -/
theorem C2_Fb_mask (alpha_v : List ℚ) (ub : ℚ) (i : ℕ)
    (hi : i < alpha_v.length) :
    (update_Fb_max alpha_v ub).getD i 0
        = (if alpha_v.getD i 0 = 1 then ub else DOLFIN_EPS) ∧
    (alpha_v.getD i 0 = 0 → (update_Fb_max alpha_v ub).getD i 0 = DOLFIN_EPS) ∧
    (alpha_v.getD i 0 = 1 → (update_Fb_max alpha_v ub).getD i 0 = ub) := by
  have h1 : (update_Fb_max alpha_v ub).getD i 0
      = (if alpha_v.getD i 0 = 1 then ub else DOLFIN_EPS) := by
    simp [update_Fb_max, List.getD_eq_getElem?_getD, List.getElem?_map,
          List.getElem?_eq_getElem hi]
  refine ⟨h1, fun h0 => ?_, fun hone => ?_⟩
  · rw [h1, h0]
    norm_num
  · rw [h1, if_pos hone]

/-- C2 witness: with the temperate mask `[0, 1]` and upper bound `5`,
the cold dof receives `DOLFIN_EPS` and the temperate dof receives `5`. -/
theorem C2_Fb_mask_witness :
    (0 : ℕ) < ([0, 1] : List ℚ).length ∧
    (update_Fb_max [0, 1] 5).getD 0 0 = DOLFIN_EPS ∧
    (update_Fb_max [0, 1] 5).getD 1 0 = 5 := by
  refine ⟨by decide, ?_, ?_⟩
  · exact (C2_Fb_mask [0, 1] 5 0 (by decide)).2.1 (by decide)
  · exact (C2_Fb_mask [0, 1] 5 1 (by decide)).2.2 (by decide)

/-- C3: with `atol = 1`, a momentum solve that only writes `U3 = 0` and
an energy solve that leaves `theta` unchanged (together the identity
`step` on the enthalpy, with `errFn theta0 theta0 = 0` since the l2 norm
of the zero vector is zero), `thermo_solve` executes exactly one
fixed-point iteration: the recorded `abs_err` is 0, `rel_err` is
assigned the value of `abs_err` by the iteration-1 rule, the loop
exits, and `abs_err.txt` holds exactly the single line 0.  In general
the guard fails (the loop stops) whenever `err < atol`, whenever
`rel_err < rtol`, and whenever `counter > max_iter`. -/
theorem C3_single_pass (step : ℕ → List ℚ → List ℚ)
    (errFn : List ℚ → List ℚ → ℚ) (nrmFn : List ℚ → ℚ)
    (rtol : ℚ) (maxIter : ℕ) (theta0 f0 n0 : List ℚ)
    (hmax : 1 ≤ maxIter) (hstep : step 1 theta0 = theta0)
    (herr : errFn theta0 theta0 = 0) :
    ((thermo_solve step errFn nrmFn 1 rtol maxIter 1 theta0 f0 n0).iters = 1 ∧
     (thermo_solve step errFn nrmFn 1 rtol maxIter 1 theta0 f0 n0).absError
        = ErrVal.val 0 ∧
     (thermo_solve step errFn nrmFn 1 rtol maxIter 1 theta0 f0 n0).relError
        = ErrVal.val 0 ∧
     (thermo_solve step errFn nrmFn 1 rtol maxIter 1 theta0 f0 n0).absErrFile
        = [0]) ∧
    (∀ (x : ℚ) (r : ErrVal) (c mi : ℕ) (a rt : ℚ), x < a →
        tmcGuard (ErrVal.val x) r c mi a rt = false) ∧
    (∀ (e : ErrVal) (y : ℚ) (c mi : ℕ) (a rt : ℚ), y < rt →
        tmcGuard e (ErrVal.val y) c mi a rt = false) ∧
    (∀ (e r : ErrVal) (c mi : ℕ) (a rt : ℚ), mi < c →
        tmcGuard e r c mi a rt = false) := by
  refine ⟨?_, ?_, ?_, ?_⟩
  · obtain ⟨m, rfl⟩ : ∃ m, maxIter = m + 1 := ⟨maxIter - 1, by omega⟩
    have hg0 : tmcGuard ErrVal.inf ErrVal.inf (counter_start 1) (m + 1) 1 rtol
        = true := by
      simp [tmcGuard, ErrVal.gtQ, counter_start]
    have hg1 : tmcGuard (ErrVal.val 0) (ErrVal.val 0) 2 (m + 1) 1 rtol
        = false := by
      simp [tmcGuard, ErrVal.gtQ]
    have hbody : tmcBody step errFn nrmFn
        { theta := theta0, thetaPrev := theta0, absError := ErrVal.inf,
          relError := ErrVal.inf, counter := counter_start 1,
          absErrFile := f0, thetaNormFile := n0, iters := 0 }
        = { theta := theta0, thetaPrev := theta0, absError := ErrVal.val 0,
            relError := ErrVal.val 0, counter := 2,
            absErrFile := [0], thetaNormFile := [nrmFn theta0],
            iters := 1 } := by
      simp [tmcBody, counter_start, hstep, herr]
    have hrun : thermo_solve step errFn nrmFn 1 rtol (m + 1) 1 theta0 f0 n0
        = { theta := theta0, thetaPrev := theta0, absError := ErrVal.val 0,
            relError := ErrVal.val 0, counter := 2,
            absErrFile := [0], thetaNormFile := [nrmFn theta0],
            iters := 1 } := by
      show tmcLoop step errFn nrmFn 1 rtol (m + 1) (m + 1 + 1) _ = _
      rw [tmcLoop, if_pos hg0, hbody]
      cases m with
      | zero => rw [tmcLoop, if_neg (by simpa using hg1)]
      | succ k => rw [tmcLoop, if_neg (by simpa using hg1)]
    rw [hrun]
    exact ⟨rfl, rfl, rfl, rfl⟩
  · intro x r c mi a rt hx
    simp [tmcGuard, ErrVal.gtQ, not_lt.mpr hx.le]
  · intro e y c mi a rt hy
    simp [tmcGuard, ErrVal.gtQ, not_lt.mpr hy.le]
  · intro e r c mi a rt hc
    simp [tmcGuard, not_le.mpr hc]

/-- C3 witness: with `theta0 = [1, 2]`, the identity step, the
sum-of-squared-differences error and `max_iter = 3`, the hypotheses
hold concretely and the run performs exactly one iteration recording
the single history line 0. -/
theorem C3_single_pass_witness :
    (1 : ℕ) ≤ 3 ∧
    ((fun (a b : List ℚ) => ((a.zip b).map (fun p => (p.1 - p.2) ^ 2)).sum)
        [1, 2] [1, 2] = 0) ∧
    ((thermo_solve (fun _ t => t)
        (fun a b => ((a.zip b).map (fun p => (p.1 - p.2) ^ 2)).sum)
        (fun t => t.sum) 1 1 3 1 [1, 2] [] []).iters = 1 ∧
     (thermo_solve (fun _ t => t)
        (fun a b => ((a.zip b).map (fun p => (p.1 - p.2) ^ 2)).sum)
        (fun t => t.sum) 1 1 3 1 [1, 2] [] []).absErrFile = [0]) := by
  refine ⟨by norm_num, by norm_num [List.zip_cons_cons], ?_⟩
  have h := (C3_single_pass (fun _ t => t)
      (fun a b => ((a.zip b).map (fun p => (p.1 - p.2) ^ 2)).sum)
      (fun t => t.sum) 1 3 [1, 2] [] [] (by norm_num) rfl
      (by norm_num [List.zip_cons_cons])).1
  exact ⟨h.1, h.2.2.2⟩

/-- C4 counterexample: at a time step with current time `t = 50 ≤ 100`,
a Mass solve that always reports failure is NOT retried with `dt`
halved — the adaptive mass loop exits after a single attempt with the
step marked solved and `dt` still `1`, contradicting the claim that on
every time step a failed Mass solve is retried with `dt` halved. -/
theorem C4_counterexample :
    mass_retry 50 (fun _ => false) 5 1 = ⟨1, true, 1⟩ ∧
    ((1 : ℚ) ≠ 1 / 2) := by
  constructor
  · rw [mass_retry]
    norm_num [DOLFIN_EPS]
  · norm_num

/-- C4 amended: in `transient_solve` with `adaptive = True`, a failed
Momentum solve is retried with the Newton relaxation parameter divided
by 1.43 each attempt, stopping at the 0.2 floor; a failed Mass solve is
retried with `dt` halved each attempt, stopping at the `DOLFIN_EPS`
floor, but only on steps whose time `t` exceeds 100 — for `t ≤ 100` a
reported mass failure is overridden to success; after the step, the
originally-requested `dt` and relaxation parameter are restored. -/
theorem C4_adaptive_policy :
    (∀ (solve : ℚ → Bool) (fuel : ℕ) (par : ℚ), par < 0.2 →
        momentum_retry solve (fuel + 1) par = ⟨par, false, 0⟩) ∧
    (∀ (solve : ℚ → Bool) (fuel : ℕ) (par : ℚ), ¬ par < 0.2 →
        solve par = false →
        momentum_retry solve (fuel + 1) par
          = ⟨(momentum_retry solve fuel (par / 1.43)).param,
             (momentum_retry solve fuel (par / 1.43)).solved,
             (momentum_retry solve fuel (par / 1.43)).attempts + 1⟩) ∧
    (∀ (solve : ℚ → Bool) (fuel : ℕ) (par : ℚ), ¬ par < 0.2 →
        solve par = true →
        momentum_retry solve (fuel + 1) par = ⟨par, true, 1⟩) ∧
    (∀ (t : ℚ) (solve : ℚ → Bool) (fuel : ℕ) (dt : ℚ), dt < DOLFIN_EPS →
        mass_retry t solve (fuel + 1) dt = ⟨dt, false, 0⟩) ∧
    (∀ (t : ℚ) (solve : ℚ → Bool) (fuel : ℕ) (dt : ℚ),
        ¬ dt < DOLFIN_EPS → ¬ t ≤ 100 → solve dt = false →
        mass_retry t solve (fuel + 1) dt
          = ⟨(mass_retry t solve fuel (dt / 2)).param,
             (mass_retry t solve fuel (dt / 2)).solved,
             (mass_retry t solve fuel (dt / 2)).attempts + 1⟩) ∧
    (∀ alpha timeStep par dt : ℚ,
        restore_params alpha timeStep par dt = (alpha, timeStep)) := by
  refine ⟨?_, ?_, ?_, ?_, ?_, ?_⟩
  · intro solve fuel par h
    rw [momentum_retry, if_pos h]
  · intro solve fuel par h hs
    rw [momentum_retry, if_neg h, hs]
    simp
  · intro solve fuel par h hs
    rw [momentum_retry, if_neg h, hs]
    simp
  · intro t solve fuel dt h
    rw [mass_retry, if_pos h]
  · intro t solve fuel dt h ht hs
    rw [mass_retry, if_neg h, hs]
    simp [ht]
  · intro alpha timeStep par dt
    unfold restore_params
    rcases eq_or_ne par alpha with h | h <;>
      rcases eq_or_ne dt timeStep with h2 | h2 <;> simp [h, h2]

/-- C4 amended witness: each retry rule applied at a concrete input —
the momentum loop gives up at parameter 0.1, divides 1 by 1.43 after a
failure, succeeds in one attempt when the solve succeeds; the mass loop
gives up at `dt = 0`, halves `dt = 1` at `t = 200` after a failure; and
the restore step yields the requested pair. -/
theorem C4_adaptive_policy_witness :
    ((1 : ℚ) / 10 < 0.2 ∧
      momentum_retry (fun _ => false) 3 (1 / 10) = ⟨1 / 10, false, 0⟩) ∧
    (¬ (1 : ℚ) < 0.2 ∧
      momentum_retry (fun _ => false) 3 1
        = ⟨(momentum_retry (fun _ => false) 2 (1 / 1.43)).param,
           (momentum_retry (fun _ => false) 2 (1 / 1.43)).solved,
           (momentum_retry (fun _ => false) 2 (1 / 1.43)).attempts + 1⟩) ∧
    (momentum_retry (fun _ => true) 3 1 = ⟨1, true, 1⟩) ∧
    ((0 : ℚ) < DOLFIN_EPS ∧
      mass_retry 200 (fun _ => false) 3 0 = ⟨0, false, 0⟩) ∧
    (¬ (200 : ℚ) ≤ 100 ∧
      mass_retry 200 (fun _ => false) 3 1
        = ⟨(mass_retry 200 (fun _ => false) 2 (1 / 2)).param,
           (mass_retry 200 (fun _ => false) 2 (1 / 2)).solved,
           (mass_retry 200 (fun _ => false) 2 (1 / 2)).attempts + 1⟩) ∧
    restore_params 1 (1 / 100) (7 / 10) (1 / 200) = (1, 1 / 100) := by
  refine ⟨⟨by norm_num, ?_⟩, ⟨by norm_num, ?_⟩, ?_, ⟨by norm_num [DOLFIN_EPS], ?_⟩,
          ⟨by norm_num, ?_⟩, ?_⟩
  · exact C4_adaptive_policy.1 (fun _ => false) 2 (1 / 10) (by norm_num)
  · exact C4_adaptive_policy.2.1 (fun _ => false) 2 1 (by norm_num) rfl
  · exact C4_adaptive_policy.2.2.1 (fun _ => true) 2 1 (by norm_num) rfl
  · exact C4_adaptive_policy.2.2.2.1 200 (fun _ => false) 2 0
      (by norm_num [DOLFIN_EPS])
  · exact C4_adaptive_policy.2.2.2.2.1 200 (fun _ => false) 2 1
      (by norm_num [DOLFIN_EPS]) (by norm_num) rfl
  · exact C4_adaptive_policy.2.2.2.2.2 1 (1 / 100) (7 / 10) (1 / 200)

/-- C5: in `transient_solve` with `adaptive = True`, on a step whose
time satisfies `t ≤ 100` (and whose `dt` has not fallen below the
`DOLFIN_EPS` floor), a Mass solve reporting failure is treated as
solved: exactly one attempt is made, `dt` is not halved, and the loop
exits successfully. -/
theorem C5_mass_t100 (t : ℚ) (solve : ℚ → Bool) (fuel : ℕ) (dt : ℚ)
    (ht : t ≤ 100) (hdt : ¬ dt < DOLFIN_EPS) :
    mass_retry t solve (fuel + 1) dt = ⟨dt, true, 1⟩ := by
  rw [mass_retry, if_neg hdt]
  simp [ht]

/-- C5 witness: at `t = 50 ≤ 100` with `dt = 1 ≥ DOLFIN_EPS` and an
always-failing mass solve, the loop reports success after one attempt
with `dt` unchanged. -/
theorem C5_mass_t100_witness :
    (50 : ℚ) ≤ 100 ∧ ¬ (1 : ℚ) < DOLFIN_EPS ∧
    mass_retry 50 (fun _ => false) 3 1 = ⟨1, true, 1⟩ := by
  refine ⟨by norm_num, by norm_num [DOLFIN_EPS], ?_⟩
  exact C5_mass_t100 50 (fun _ => false) 2 1 (by norm_num)
    (by norm_num [DOLFIN_EPS])

/-- C7 counterexample: `init_U` with the single velocity vector
`(1, 0, 0)` gives `U_mag = sqrt(1² + 0² + 0² + DOLFIN_EPS)`, which is
strictly less than `‖U3‖ + ε = sqrt(1² + 0² + 0²) + DOLFIN_EPS`; the
claimed identity fails at this input. -/
theorem C7_counterexample :
    (init_U ⟨[], []⟩ [((1 : ℝ), 0, 0)]).U_mag
      ≠ [Real.sqrt (1 ^ 2 + 0 ^ 2 + 0 ^ 2) + ((DOLFIN_EPS : ℚ) : ℝ)] := by
  have he : (0 : ℝ) < ((DOLFIN_EPS : ℚ) : ℝ) := by
    norm_num [DOLFIN_EPS]
  intro h
  have h2 : Real.sqrt ((1 : ℝ) ^ 2 + 0 ^ 2 + 0 ^ 2 + ((DOLFIN_EPS : ℚ) : ℝ))
      = Real.sqrt ((1 : ℝ) ^ 2 + 0 ^ 2 + 0 ^ 2) + ((DOLFIN_EPS : ℚ) : ℝ) := by
    simpa [init_U, init_U_mag_values] using h
  rw [show (1 : ℝ) ^ 2 + 0 ^ 2 + 0 ^ 2 + ((DOLFIN_EPS : ℚ) : ℝ)
        = 1 + ((DOLFIN_EPS : ℚ) : ℝ) by ring,
      show (1 : ℝ) ^ 2 + 0 ^ 2 + 0 ^ 2 = 1 by norm_num,
      Real.sqrt_one] at h2
  have hlt : Real.sqrt (1 + ((DOLFIN_EPS : ℚ) : ℝ))
      < 1 + ((DOLFIN_EPS : ℚ) : ℝ) := by
    rw [Real.sqrt_lt' (by linarith)]
    nlinarith
  rw [h2] at hlt
  exact lt_irrefl _ hlt

/-- C7 amended: after `init_U`, the velocity `U3` holds the assigned
vector and `U_mag` at every dof equals
`sqrt(u² + v² + w² + DOLFIN_EPS)` — the regularization constant is added
under the square root, not to the magnitude. -/
theorem C7_U_mag (s : VelState) (U : List (ℝ × ℝ × ℝ)) (i : ℕ)
    (hi : i < U.length) :
    (init_U s U).U3 = U ∧
    (init_U s U).U_mag.getD i 0
      = Real.sqrt ((U.getD i (0, 0, 0)).1 ^ 2 + (U.getD i (0, 0, 0)).2.1 ^ 2
          + (U.getD i (0, 0, 0)).2.2 ^ 2 + ((DOLFIN_EPS : ℚ) : ℝ)) := by
  refine ⟨rfl, ?_⟩
  simp [init_U, init_U_mag_values, List.getD_eq_getElem?_getD,
        List.getElem?_map, List.getElem?_eq_getElem hi]

/-- C7 amended witness: at the single vector `(1, 2, 3)`,
`U_mag = sqrt(1² + 2² + 3² + DOLFIN_EPS)`. -/
theorem C7_U_mag_witness :
    (0 : ℕ) < ([((1 : ℝ), (2 : ℝ), (3 : ℝ))] : List (ℝ × ℝ × ℝ)).length ∧
    (init_U ⟨[], []⟩ [((1 : ℝ), 2, 3)]).U_mag.getD 0 0
      = Real.sqrt (1 ^ 2 + 2 ^ 2 + 3 ^ 2 + ((DOLFIN_EPS : ℚ) : ℝ)) := by
  constructor
  · decide
  · have h := (C7_U_mag ⟨[], []⟩ [((1 : ℝ), 2, 3)] 0 (by decide)).2
    simpa using h

set_option maxRecDepth 8000 in
/-- C6 counterexample: a wrong argument type reaching the fallthrough
branch of `assign_variable` (hence of every `init_*` operation) is NOT
fatal — the dispatch produces a warning outcome, not an exit-code-1
termination, and its diagnostic is framed by asterisks, not prefixed
by `>>>`. -/
theorem C6_counterexample :
    assign_variable_dispatch PyVal.otherObject
      = Outcome.warn assign_variable_warning ∧
    (assign_variable_dispatch PyVal.otherObject).isFatal = false ∧
    assign_variable_warning.take 3 ≠ ">>>" := by
  refine ⟨rfl, rfl, ?_⟩
  decide

set_option maxRecDepth 8000 in
/-- C6 amended: a wrong instance class passed to `thermo_solve` or
`transient_solve` is fatal — a red diagnostic line prefixed `>>>` is
printed and the process exits with code 1 — but a wrong argument type
passed to an `init_*` operation only triggers the `assign_variable`
warning branch: a red asterisk-framed message is printed and execution
continues. -/
theorem C6_config_errors :
    thermo_solve_check false true
        = Outcome.fatalExit 1 thermo_solve_momentum_msg ∧
    thermo_solve_check false false
        = Outcome.fatalExit 1 thermo_solve_momentum_msg ∧
    thermo_solve_check true false
        = Outcome.fatalExit 1 thermo_solve_energy_msg ∧
    thermo_solve_check true true = Outcome.ok ∧
    transient_solve_check false true true
        = Outcome.fatalExit 1 transient_momentum_msg ∧
    transient_solve_check true false true
        = Outcome.fatalExit 1 transient_energy_msg ∧
    transient_solve_check true true false
        = Outcome.fatalExit 1 transient_mass_msg ∧
    transient_solve_check true true true = Outcome.ok ∧
    thermo_solve_momentum_msg.take 3 = ">>>" ∧
    thermo_solve_energy_msg.take 3 = ">>>" ∧
    transient_momentum_msg.take 3 = ">>>" ∧
    transient_energy_msg.take 3 = ">>>" ∧
    transient_mass_msg.take 3 = ">>>" ∧
    assign_variable_dispatch PyVal.otherObject
        = Outcome.warn assign_variable_warning ∧
    (assign_variable_dispatch PyVal.otherObject).isFatal = false ∧
    (∀ x : ℚ, assign_variable_dispatch (PyVal.pyFloat x) = Outcome.ok) ∧
    (∀ a : List ℚ, assign_variable_dispatch (PyVal.ndarray a) = Outcome.ok) ∧
    (∀ s : String, assign_variable_dispatch (PyVal.strPath s) = Outcome.ok) := by
  refine ⟨rfl, rfl, rfl, rfl, rfl, rfl, rfl, rfl, ?_, ?_, ?_, ?_, ?_,
          rfl, rfl, fun _ => rfl, fun _ => rfl, fun _ => rfl⟩ <;> decide

/-- C8 counterexample: with `max_iter = 5` the padding width is
`len(str(5)) = 1`, so the output subdirectory of iteration 3 is named
`3/`, not `03/` as the claim states. -/
theorem C8_counterexample :
    asm_dir_name 5 3 = "3/" ∧ asm_dir_name 5 4 = "4/" ∧
    asm_dir_name 5 5 = "5/" ∧ ("3/" : String) ≠ "03/" := by
  refine ⟨?_, ?_, ?_, ?_⟩ <;> decide

/-- C8 amended: with `starting_i = 3` and `max_iter = 5` (and error
values keeping the loop from converging early), the per-iteration
output subdirectories are `3/`, `4/`, `5/` — zero-padded to width
`len(str(max_iter))`, the number of decimal digits of `max_iter`,
which is 1 here — the convergence-history entries appended begin at
iteration 3, and the initialization step is performed exactly when the
`initialize` flag is set, independent of the restart index. -/
theorem C8_assimilate_restart {B : Type} (step : ℕ → B → B)
    (errFn : B → B → ℚ) (atol rtol : ℚ) (beta0 : B) (f0 : List ℚ)
    (flag : Bool) (b3 b4 b5 : B) (e3 e4 e5 : ℚ)
    (hb3 : step 3 beta0 = b3) (he3 : errFn beta0 b3 = e3)
    (hb4 : step 4 b3 = b4) (he4 : errFn b3 b4 = e4)
    (hb5 : step 5 b4 = b5) (he5 : errFn b4 b5 = e5)
    (ha3 : atol < e3) (ha4 : atol < e4) (hr : rtol < |e3 - e4|) :
    (assimilate_U_ob step errFn atol rtol 5 flag 3 beta0 f0).initPerformed
        = flag ∧
    (assimilate_U_ob step errFn atol rtol 5 flag 3 beta0 f0).run.dirs
        = ["3/", "4/", "5/"] ∧
    (assimilate_U_ob step errFn atol rtol 5 flag 3 beta0 f0).run.histCounters
        = [3, 4, 5] ∧
    (assimilate_U_ob step errFn atol rtol 5 flag 3 beta0 f0).run.absErrFile
        = f0 ++ [e3, e4, e5] ∧
    counter_start 3 = 3 := by
  have hd3 : asm_dir_name 5 3 = "3/" := by decide
  have hd4 : asm_dir_name 5 4 = "4/" := by decide
  have hd5 : asm_dir_name 5 5 = "5/" := by decide
  have hg0 : tmcGuard ErrVal.inf ErrVal.inf 3 5 atol rtol = true := by
    simp [tmcGuard, ErrVal.gtQ]
  have hg1 : tmcGuard (ErrVal.val e3) ErrVal.inf 4 5 atol rtol = true := by
    simp [tmcGuard, ErrVal.gtQ, ha3]
  have hg2 : tmcGuard (ErrVal.val e4) (ErrVal.val |e3 - e4|) 5 5 atol rtol
      = true := by
    simp [tmcGuard, ErrVal.gtQ, ha4, hr]
  have hg3 : tmcGuard (ErrVal.val e5) (ErrVal.val |e4 - e5|) 6 5 atol rtol
      = false := by
    simp [tmcGuard]
  have hrun : (assimilate_U_ob step errFn atol rtol 5 flag 3 beta0 f0).run
      = { beta := b5, betaPrev := b5, absError := ErrVal.val e5,
          relError := ErrVal.val |e4 - e5|, counter := 6,
          absErrFile := f0 ++ [e3, e4, e5], histCounters := [3, 4, 5],
          dirs := [asm_dir_name 5 3, asm_dir_name 5 4, asm_dir_name 5 5] } := by
    have hs1 : asm_body step errFn 5
        { beta := beta0, betaPrev := beta0, absError := ErrVal.inf,
          relError := ErrVal.inf, counter := 3,
          absErrFile := f0, histCounters := [], dirs := [] }
        = { beta := b3, betaPrev := b3, absError := ErrVal.val e3,
            relError := ErrVal.inf, counter := 4,
            absErrFile := f0 ++ [e3], histCounters := [3],
            dirs := [asm_dir_name 5 3] } := by
      simp [asm_body, counter_start, hb3, he3, ErrVal.absSub]
    have hs2 : asm_body step errFn 5
        { beta := b3, betaPrev := b3, absError := ErrVal.val e3,
          relError := ErrVal.inf, counter := 4,
          absErrFile := f0 ++ [e3], histCounters := [3],
          dirs := [asm_dir_name 5 3] }
        = { beta := b4, betaPrev := b4, absError := ErrVal.val e4,
            relError := ErrVal.val |e3 - e4|, counter := 5,
            absErrFile := f0 ++ [e3, e4], histCounters := [3, 4],
            dirs := [asm_dir_name 5 3, asm_dir_name 5 4] } := by
      simp [asm_body, hb4, he4, ErrVal.absSub]
    have hs3 : asm_body step errFn 5
        { beta := b4, betaPrev := b4, absError := ErrVal.val e4,
          relError := ErrVal.val |e3 - e4|, counter := 5,
          absErrFile := f0 ++ [e3, e4], histCounters := [3, 4],
          dirs := [asm_dir_name 5 3, asm_dir_name 5 4] }
        = { beta := b5, betaPrev := b5, absError := ErrVal.val e5,
            relError := ErrVal.val |e4 - e5|, counter := 6,
            absErrFile := f0 ++ [e3, e4, e5], histCounters := [3, 4, 5],
            dirs := [asm_dir_name 5 3, asm_dir_name 5 4, asm_dir_name 5 5] }
        := by
      simp [asm_body, hb5, he5, ErrVal.absSub]
    show asm_loop step errFn atol rtol 5 (5 + 1)
        { beta := beta0, betaPrev := beta0, absError := ErrVal.inf,
          relError := ErrVal.inf, counter := counter_start 3,
          absErrFile := f0, histCounters := [], dirs := [] } = _
    rw [asm_loop, show counter_start 3 = 3 from rfl, if_pos hg0, hs1]
    show asm_loop step errFn atol rtol 5 (4 + 1) _ = _
    rw [asm_loop, if_pos hg1, hs2]
    show asm_loop step errFn atol rtol 5 (3 + 1) _ = _
    rw [asm_loop, if_pos hg2, hs3]
    show asm_loop step errFn atol rtol 5 (2 + 1) _ = _
    rw [asm_loop, if_neg (by simpa using hg3)]
  refine ⟨rfl, ?_, ?_, ?_, rfl⟩
  · rw [hrun]
    simp [hd3, hd4, hd5]
  · rw [hrun]
  · rw [hrun]

/-- C8 amended witness: a concrete run — basal-traction iterates
`3, 4, 5`, error values `3, 1, 1`, tolerances `1/2` — performs the
three iterations `3/`, `4/`, `5/` and appends exactly the history
entries of iterations 3, 4, 5. -/
theorem C8_assimilate_restart_witness :
    ((1 : ℚ) / 2 < 3 ∧ (1 : ℚ) / 2 < 1 ∧ (1 : ℚ) / 2 < |(3 : ℚ) - 1|) ∧
    ((assimilate_U_ob (fun c (_ : ℕ) => c)
        (fun p b => |(b : ℚ) - (p : ℚ)|) (1 / 2) (1 / 2) 5 true 3 0 []).run.dirs
        = ["3/", "4/", "5/"] ∧
     (assimilate_U_ob (fun c (_ : ℕ) => c)
        (fun p b => |(b : ℚ) - (p : ℚ)|) (1 / 2) (1 / 2) 5 true 3 0
        []).run.histCounters = [3, 4, 5]) := by
  refine ⟨⟨by norm_num, by norm_num, by norm_num⟩, ?_⟩
  have h := C8_assimilate_restart (fun c (_ : ℕ) => c)
      (fun p b => |(b : ℚ) - (p : ℚ)|) (1 / 2) (1 / 2) 0 [] true 3 4 5 3 1 1
      rfl (by norm_num) rfl (by norm_num) rfl (by norm_num)
      (by norm_num) (by norm_num) (by norm_num)
  exact ⟨h.2.1, h.2.2.1⟩

/-- C9: for every `thklim`, the topography triples produced by the
`get_bedmap2` and `get_bamber` adjustment blocks satisfy, at every grid
point, `H ≥ thklim` and `S - B = H` exactly. -/
theorem C9_topography (S H Sb Bo Hb : List ℚ) (thklim : ℚ) (i j : ℕ)
    (hSH : S.length = H.length) (hi : i < H.length)
    (hSb : Sb.length = Hb.length) (hBo : Bo.length = Hb.length)
    (hj : j < Hb.length) :
    (thklim ≤ (bedmap2_adjust S H thklim).2.2.getD i 0 ∧
     (bedmap2_adjust S H thklim).1.getD i 0
        - (bedmap2_adjust S H thklim).2.1.getD i 0
        = (bedmap2_adjust S H thklim).2.2.getD i 0) ∧
    (thklim ≤ (bamber_adjust Sb Bo Hb thklim).2.2.getD j 0 ∧
     (bamber_adjust Sb Bo Hb thklim).1.getD j 0
        - (bamber_adjust Sb Bo Hb thklim).2.1.getD j 0
        = (bamber_adjust Sb Bo Hb thklim).2.2.getD j 0) := by
  constructor
  · have hiH1 : i < (H.map (fun h => if h = 32767 then thklim else h)).length
        := by simpa using hi
    have hiB : i < (List.zipWith (· - ·) S H).length := by
      simp only [List.length_zipWith]
      omega
    have hiH2 : i < ((H.map (fun h => if h = 32767 then thklim else h)).map
        (fun h => if h ≤ thklim then thklim else h)).length := by
      simpa using hi
    have hH2 : (bedmap2_adjust S H thklim).2.2.getD i 0
        = (fun h => if h ≤ thklim then thklim else h)
            ((fun h => if h = 32767 then thklim else h) (H.getD i 0)) := by
      show ((H.map _).map _).getD i 0 = _
      rw [getD_map_lt _ _ _ _ 0 hiH1, getD_map_lt _ _ _ _ 0 hi]
    have hS2 : (bedmap2_adjust S H thklim).1.getD i 0
        = (List.zipWith (· - ·) S H).getD i 0
            + (bedmap2_adjust S H thklim).2.2.getD i 0 := by
      show (List.zipWith (· + ·) _ _).getD i 0 = _
      rw [getD_zipWith_lt _ _ _ _ _ 0 0 hiB hiH2]
      rfl
    constructor
    · rw [hH2]
      have hfloor : ∀ x : ℚ, thklim ≤ if x ≤ thklim then thklim else x := by
        intro x
        split
        · exact le_refl thklim
        · next h => exact le_of_not_le h
      exact hfloor _
    · rw [hS2,
          show (bedmap2_adjust S H thklim).2.1 = List.zipWith (· - ·) S H
            from rfl]
      ring
  · have hjH1 : j < (Hb.map (fun h => if h = -9999 then 0 else h)).length
        := by simpa using hj
    have hjS1 : j < (List.zipWith
        (fun sb h1 => if h1 < thklim then sb.2 + thklim else sb.1)
        (Sb.zip Bo) (Hb.map (fun h => if h = -9999 then 0 else h))).length
        := by
      simp only [List.length_zipWith, List.length_zip, List.length_map]
      omega
    have hjH2 : j < ((Hb.map (fun h => if h = -9999 then 0 else h)).map
        (fun h => if h < thklim then thklim else h)).length := by
      simpa using hj
    have hH2 : (bamber_adjust Sb Bo Hb thklim).2.2.getD j 0
        = (fun h => if h < thklim then thklim else h)
            ((fun h => if h = -9999 then 0 else h) (Hb.getD j 0)) := by
      show ((Hb.map _).map _).getD j 0 = _
      rw [getD_map_lt _ _ _ _ 0 hjH1, getD_map_lt _ _ _ _ 0 hj]
    have hB2 : (bamber_adjust Sb Bo Hb thklim).2.1.getD j 0
        = (bamber_adjust Sb Bo Hb thklim).1.getD j 0
            - (bamber_adjust Sb Bo Hb thklim).2.2.getD j 0 := by
      show (List.zipWith (· - ·) _ _).getD j 0 = _
      rw [getD_zipWith_lt _ _ _ _ _ 0 0 hjS1 hjH2]
      rfl
    constructor
    · rw [hH2]
      have hfloor : ∀ x : ℚ, thklim ≤ if x < thklim then thklim else x := by
        intro x
        split
        · exact le_refl thklim
        · next h => exact le_of_not_lt h
      exact hfloor _
    · rw [hB2]
      ring

/-- C9 witness: concrete grids — bedmap2 with a junk-sentinel cell
`H = [90, 32767]`, bamber with a missing-data cell `H = [-9999]` — are
floored at `thklim` with `S − B = H` at every point. -/
theorem C9_topography_witness :
    (([100, 5] : List ℚ).length = ([90, 32767] : List ℚ).length ∧
      (0 : ℕ) < ([90, 32767] : List ℚ).length ∧
      ([100] : List ℚ).length = ([-9999] : List ℚ).length ∧
      ([0] : List ℚ).length = ([-9999] : List ℚ).length ∧
      (0 : ℕ) < ([-9999] : List ℚ).length) ∧
    ((10 : ℚ) ≤ (bedmap2_adjust [100, 5] [90, 32767] 10).2.2.getD 0 0 ∧
     (bedmap2_adjust [100, 5] [90, 32767] 10).1.getD 0 0
        - (bedmap2_adjust [100, 5] [90, 32767] 10).2.1.getD 0 0
        = (bedmap2_adjust [100, 5] [90, 32767] 10).2.2.getD 0 0) ∧
    ((10 : ℚ) ≤ (bamber_adjust [100] [0] [-9999] 10).2.2.getD 0 0 ∧
     (bamber_adjust [100] [0] [-9999] 10).1.getD 0 0
        - (bamber_adjust [100] [0] [-9999] 10).2.1.getD 0 0
        = (bamber_adjust [100] [0] [-9999] 10).2.2.getD 0 0) := by
  refine ⟨⟨rfl, by norm_num, rfl, rfl, by norm_num⟩, ?_⟩
  exact C9_topography [100, 5] [90, 32767] [100] [0] [-9999] 10 0 0
    rfl (by norm_num) rfl rfl (by norm_num)

/-- C10 counterexample: with a physics whose reset state differs from
its entry state, `L_curve` over the weight lists `[1, 2]` and `[2, 1]`
writes different files for the weight `1` in the two orders — the
first-processed weight skips the reset (`if i > 0`), so the claimed
order-independence fails. -/
theorem C10_counterexample :
    L_curve (fun _ : ℕ => 0) (fun p (_ : Unit) (_ : ℕ) => (p + 1, (), p))
        5 () [1, 2] = [(1, 5), (2, 0)] ∧
    L_curve (fun _ : ℕ => 0) (fun p (_ : Unit) (_ : ℕ) => (p + 1, (), p))
        5 () [2, 1] = [(2, 5), (1, 0)] ∧
    (5 : ℕ) ≠ 0 := by
  refine ⟨rfl, rfl, by decide⟩

/-- C10 amended: `L_curve` resets the physics and restores the control
snapshot only before the second and subsequent optimizations; when the
physics state at entry already equals the post-reset state, every
weight is optimized from the same state `(reset-state, snapshot)`, so
the files written for each weight are identical regardless of the order
in which the weights are presented. -/
theorem C10_L_curve {P C A F : Type} (reset : P → P)
    (optimize : P → C → A → P × C × F) (pr p0 : P) (c0 : C)
    (hreset : ∀ p, reset p = pr) (hentry : p0 = pr) :
    (∀ l : List A, L_curve reset optimize p0 c0 l
        = l.map (fun a => (a, (optimize pr c0 a).2.2))) ∧
    (∀ (l₁ l₂ : List A) (a : A) (f₁ f₂ : F), l₁.Perm l₂ →
        (a, f₁) ∈ L_curve reset optimize p0 c0 l₁ →
        (a, f₂) ∈ L_curve reset optimize p0 c0 l₂ → f₁ = f₂) := by
  have hgo : ∀ (l : List A) (p : P) (c : C),
      l_curve_go reset optimize c0 false p c l
        = l.map (fun a => (a, (optimize pr c0 a).2.2)) := by
    intro l
    induction l with
    | nil => intro p c; rfl
    | cons a rest ih =>
      intro p c
      show (a, (optimize (reset p) c0 a).2.2) ::
          l_curve_go reset optimize c0 false _ _ rest = _
      rw [hreset, ih]
      rfl
  have hmain : ∀ l : List A, L_curve reset optimize p0 c0 l
      = l.map (fun a => (a, (optimize pr c0 a).2.2)) := by
    intro l
    cases l with
    | nil => rfl
    | cons a rest =>
      show (a, (optimize p0 c0 a).2.2) ::
          l_curve_go reset optimize c0 false _ _ rest = _
      rw [hentry, hgo]
      rfl
  refine ⟨hmain, ?_⟩
  intro l₁ l₂ a f₁ f₂ _ h₁ h₂
  rw [hmain l₁] at h₁
  rw [hmain l₂] at h₂
  obtain ⟨x, _, hx⟩ := List.mem_map.mp h₁
  obtain ⟨y, _, hy⟩ := List.mem_map.mp h₂
  have hxa : x = a := congrArg Prod.fst hx
  have hya : y = a := congrArg Prod.fst hy
  have hf₁ : f₁ = (optimize pr c0 a).2.2 := by
    rw [← hxa]
    exact (congrArg Prod.snd hx).symm
  have hf₂ : f₂ = (optimize pr c0 a).2.2 := by
    rw [← hya]
    exact (congrArg Prod.snd hy).symm
  rw [hf₁, hf₂]

/-- C10 amended witness: a physics with constant reset state 0 entered
at state 0 — the run over `[7]` produces the file determined by the
reset state and the snapshot alone. -/
theorem C10_L_curve_witness :
    L_curve (fun _ : ℕ => 0) (fun p (_ : Unit) (_ : ℕ) => (p + 1, (), p))
        0 () [7] = [(7, 0)] := by
  have h := (C10_L_curve (fun _ : ℕ => 0)
      (fun p (_ : Unit) (_ : ℕ) => (p + 1, (), p)) 0 0 ()
      (fun _ => rfl) rfl).1 [7]
  simpa using h

end Cslvr
